import Mathlib

/-!
Verification development for the ticktock timing library
(src/ticktock/timer.py and src/ticktock/renderers.py).

Conventions of the embedding:
* Python `int` is `Int` (arbitrary precision); Python `float` arithmetic on
  the running mean is modelled as exact rational arithmetic (`ℚ`).
* `time.perf_counter_ns()` / `time.perf_counter()` readings are injected as
  explicit arguments, so every operation is a pure function of the state and
  the current instant.
* Python dicts (insertion ordered, replace-in-place) become association
  lists with `alookup` / `aset`.
* Object identity is modelled with an explicit heap: a `ClockCollection`
  holds a store `Nat → Clock` together with an allocation counter; a "Clock
  instance" is a reference (`Nat`) into that store.
* Exceptions become `Except String`.
-/

namespace Ticktock

/-- Python-dict lookup on an association list (`key in d` / `d[key]`). -/
def alookup {α : Type} : List (String × α) → String → Option α
  | [], _ => none
  | (k, v) :: rest, s => if k = s then some v else alookup rest s

/-- Python-dict write `d[key] = v`: replace in place when the key is
present, otherwise append (insertion order preserved). -/
def aset {α : Type} : List (String × α) → String → α → List (String × α)
  | [], s, v => [(s, v)]
  | (k, w) :: rest, s, v =>
      if k = s then (k, v) :: rest else (k, w) :: aset rest s v

/-- AggregateTimes dataclass (timer.py lines 45-63).  `avg_time_ns` is a
Python float, modelled as `ℚ`; the remaining statistics are ints. -/
structure AggregateTimes where
  avg_time_ns : ℚ
  min_time_ns : Int
  max_time_ns : Int
  last_time_ns : Int
  last_dt_ns : Int
  n_periods : Nat := 1
deriving DecidableEq

/-- Constructor call in the else-branch of `Clock.tock` (timer.py lines
104-110): all five numeric fields are seeded with the same value and
`n_periods` keeps its dataclass default of 1. -/
def AggregateTimes.create (dt : Int) : AggregateTimes :=
  { avg_time_ns := (dt : ℚ)
    min_time_ns := dt
    max_time_ns := dt
    last_time_ns := dt
    last_dt_ns := dt
    n_periods := 1 }

/-- `AggregateTimes.update` (timer.py lines 55-63).  The Python source
guards three reads with truthiness: `self.max_time_ns or -math.inf` (so a
zero `max_time_ns` degenerates the max to the new value), `self.min_time_ns
or math.inf` (likewise for the min), and `self.avg_time_ns or 0` (the
identity on rationals).  The field updates happen in source order:
`last_dt_ns` is computed from the old `last_time_ns`, `n_periods` is
incremented before the mean update, and `last_time_ns` is written last. -/
def AggregateTimes.update (a : AggregateTimes) (tock_time_ns : Int) : AggregateTimes :=
  let last_dt_ns : Int := tock_time_ns - a.last_time_ns
  let n_periods : Nat := a.n_periods + 1
  let max_time_ns : Int :=
    if a.max_time_ns = 0 then tock_time_ns else max tock_time_ns a.max_time_ns
  let min_time_ns : Int :=
    if a.min_time_ns = 0 then tock_time_ns else min tock_time_ns a.min_time_ns
  let avg_time_ns : ℚ :=
    ((if a.avg_time_ns = 0 then 0 else a.avg_time_ns) * ((n_periods : ℚ) - 1)
        + (last_dt_ns : ℚ)) / (n_periods : ℚ)
  { avg_time_ns := avg_time_ns
    min_time_ns := min_time_ns
    max_time_ns := max_time_ns
    last_time_ns := tock_time_ns
    last_dt_ns := last_dt_ns
    n_periods := n_periods }

/-- Iterated `update` with one fixed value: `updateIter a e k` is `a` after
`k` successive calls `update(e)`. -/
def updateIter (a : AggregateTimes) (e : Int) : Nat → AggregateTimes
  | 0 => a
  | k + 1 => (updateIter a e k).update e

/-- Fold a whole sequence of `update` calls over a record. -/
def updateAll (a : AggregateTimes) (l : List Int) : AggregateTimes :=
  l.foldl AggregateTimes.update a

/-- One Clock object (timer.py lines 66-113).  The frame-derived parts of
label resolution (`inspect.stack`) are injected: callers pass the resolved
unique id and tock label as strings. -/
structure Clock where
  name : String
  uniqueId : String
  aggregate_times : List (String × AggregateTimes)
  tick_time_ns : Option Int
deriving DecidableEq

/-- Default (arbitrary) Clock used to read an unallocated heap cell. -/
def defaultClock : Clock :=
  { name := "", uniqueId := "", aggregate_times := [], tick_time_ns := none }

/-- `Clock.tick` (timer.py lines 89-91): store the current
`perf_counter_ns` reading as the pending tick timestamp, overwriting any
previous one.  The source also returns the stored value. -/
def Clock.tick (c : Clock) (now : Int) : Clock :=
  { c with tick_time_ns := some now }

/-- `Clock.tock` statistics step (timer.py lines 93-111), with the label
already resolved (the source derives a default label from caller frames
when none is given).  If the label is present, the source calls
`update(tock_time_ns)` on the existing record — passing the raw
`perf_counter_ns` reading.  Only the else-branch computes
`dt = tock_time_ns - self._tick_time_ns`; when `_tick_time_ns` is `None`
that subtraction raises a `TypeError`.  The registry notification
(`self.collection.update()`) is modelled at the collection level. -/
def Clock.tock (c : Clock) (label : String) (tock_time_ns : Int) : Except String Clock :=
  match alookup c.aggregate_times label with
  | some a =>
      .ok { c with aggregate_times := aset c.aggregate_times label (a.update tock_time_ns) }
  | none =>
      match c.tick_time_ns with
      | none => .error "TypeError: unsupported operand types for subtraction: int and NoneType"
      | some t =>
          let dt := tock_time_ns - t
          .ok { c with aggregate_times := aset c.aggregate_times label (AggregateTimes.create dt) }

/-- Python value held in `ClockCollection._period`: `os.environ.get`
returns a `str` when the variable is set, and the source never converts
it, so the field is either a float (here `ℚ`) or a string. -/
inductive PyPeriod where
  | num (q : ℚ)
  | str (s : String)
deriving DecidableEq

/-- ClockCollection (timer.py lines 11-33).  `store`/`nextRef` form the
heap of allocated Clock objects: a reference (`Nat`) into `store` models a
Python object identity. -/
structure ClockCollection where
  store : Nat → Clock
  nextRef : Nat
  clocks : List (String × Nat)
  last_refresh_time_s : Option ℚ
  period : PyPeriod

/-- `DEFAULT_PERIOD` (timer.py line 8), as the float `float(DEFAULT_PERIOD)`. -/
def DEFAULT_PERIOD : ℚ := 2

/-- `ClockCollection.__init__` (timer.py lines 12-17).  The period is
`period or os.environ.get("TICKTOCK_DEFAULT_PERIOD", float(DEFAULT_PERIOD))`:
a falsy `period` argument (`None`, but also `0`) falls through to the
environment lookup, and an environment value is kept as the raw string.
`envPeriod` injects the environment variable. -/
def ClockCollection.init (period : Option ℚ) (envPeriod : Option String) : ClockCollection :=
  let fallback : PyPeriod :=
    match envPeriod with
    | some s => .str s
    | none => .num DEFAULT_PERIOD
  { store := fun _ => defaultClock
    nextRef := 0
    clocks := []
    last_refresh_time_s := none
    period :=
      match period with
      | some p => if p = 0 then fallback else .num p
      | none => fallback }

/-- `ClockCollection.update` (timer.py lines 19-25), the refresh gate.
`now` injects `time.perf_counter()` (the source reads the clock once for
the comparison and once after printing; both reads are modelled as the
same instant).  The returned Bool records whether `self.print()` ran.
Python short-circuits the `or`, so a `None` last-refresh renders without
touching `_period`; otherwise comparing a float with a str period raises
`TypeError`. -/
def ClockCollection.update (c : ClockCollection) (now : ℚ) : Except String (ClockCollection × Bool) :=
  match c.last_refresh_time_s with
  | none => .ok ({ c with last_refresh_time_s := some now }, true)
  | some t =>
      match c.period with
      | .num p =>
          if now - t > p then .ok ({ c with last_refresh_time_s := some now }, true)
          else .ok (c, false)
      | .str _ => .error "TypeError: comparison not supported between float and str"

/-- Read the Clock object behind a reference. -/
def clockAt (col : ClockCollection) (ref : Nat) : Clock :=
  col.store ref

/-- Apply `Clock.tick` to the Clock object behind a reference. -/
def tickRef (col : ClockCollection) (ref : Nat) (now : Int) : ClockCollection :=
  { col with store := Function.update col.store ref ((col.store ref).tick now) }

/-- `Clock.__init__` registration effect (timer.py lines 66-87): allocate a
new Clock object, derive `name`/`_unique_id` (an absent/falsy name yields
`clock_<len(clocks)>` and the frame-derived id; an explicit name is both),
start with an empty statistics dict, and write the object into
`collection.clocks[_unique_id]`. -/
def Clock.init (col : ClockCollection) (nameArg : Option String)
    (tick_frame_info : String) (tick_time : Option Int) : ClockCollection × Nat :=
  let ref := col.nextRef
  let cname :=
    match nameArg with
    | some n => n
    | none => "clock_" ++ toString col.clocks.length
  let uid :=
    match nameArg with
    | some n => n
    | none => tick_frame_info
  let c : Clock :=
    { name := cname, uniqueId := uid, aggregate_times := [], tick_time_ns := tick_time }
  ({ col with
      store := Function.update col.store ref c
      nextRef := ref + 1
      clocks := aset col.clocks uid ref }, ref)

/-- Entry-point `tick` free function (timer.py lines 116-137).  `frameKey`
injects the caller-frame identity `f"{filename}:{lineno}"`.  With a falsy
`name` the source looks the key up and either re-arms the existing Clock
or constructs a new one.  With a truthy `name` the lookup branch is
skipped, and the local `tick_frame_info` — assigned only inside
`if not name:` — is read at the `Clock(...)` call on line 134, so Python
raises `UnboundLocalError` before any Clock is constructed. -/
def tick (col : ClockCollection) (nameArg : Option String) (frameKey : String)
    (now : Int) : Except String (ClockCollection × Nat) :=
  match nameArg with
  | none =>
      match alookup col.clocks frameKey with
      | some ref => .ok (tickRef col ref now, ref)
      | none =>
          let (col1, ref) := Clock.init col none frameKey none
          .ok (tickRef col1 ref now, ref)
  | some _ =>
      .error "UnboundLocalError: local variable tick_frame_info referenced before assignment"

/-- `TIME_FIELDS` vocabulary (renderers.py lines 24-30): duration-valued
format fields. -/
def TIME_FIELDS : List String := ["mean", "std", "min", "max", "last"]

/-- `FIELDS` vocabulary (renderers.py lines 32-45): plainly formatted
fields. -/
def FIELDS : List String :=
  ["count", "tick_name", "tock_name", "tick_line", "tock_line",
   "tick_filename", "tock_filename", "avg_time_ns", "std_time_ns",
   "min_time_ns", "max_time_ns", "last_time_ns"]

/-- Loop body of `StandardRenderer.set_format` (renderers.py lines 85-95)
over the entries produced by `string.Formatter().parse`: each parsed tuple
contributes an optional `field_name` (`none` for a trailing literal
segment, which the source skips).  A name in `FIELDS` is appended to
`_fields`, else a name in `TIME_FIELDS` to `_time_fields`, else the source
raises `ValueError` immediately. -/
def setFormatLoop : List (Option String) → List String → List String →
    Except String (List String × List String)
  | [], fields, time_fields => .ok (fields, time_fields)
  | none :: rest, fields, time_fields => setFormatLoop rest fields time_fields
  | some f :: rest, fields, time_fields =>
      if f ∈ FIELDS then setFormatLoop rest (fields ++ [f]) time_fields
      else if f ∈ TIME_FIELDS then setFormatLoop rest fields (time_fields ++ [f])
      else .error ("Field " ++ f ++ " unknown in format string")

/-- `StandardRenderer.set_format` (renderers.py lines 81-96), abstracted
over the stdlib parse: `parsed` is the list of `field_name` entries that
`Formatter().parse` yields on the (alias-resolved) format string.  The
function only classifies field names and never renders; on success it
returns the `_fields` and `_time_fields` lists. -/
def set_format (parsed : List (Option String)) : Except String (List String × List String) :=
  setFormatLoop parsed [] []

/-- Concrete Clock mid-session: ticked at 100, one existing record under
label "lbl" seeded from an earlier elapsed interval of 10. -/
def c1Clock : Clock :=
  { name := "c"
    uniqueId := "c"
    aggregate_times := [("lbl", AggregateTimes.create 10)]
    tick_time_ns := some 100 }

/-- Concrete Clock that has never been ticked but owns a record under
label "x" from an earlier life of the object. -/
def noTickClock : Clock :=
  { name := "n"
    uniqueId := "n"
    aggregate_times := [("x", AggregateTimes.create 7)]
    tick_time_ns := none }

/-- Collection state after one unnamed entry-point `tick` at call site
"a.py:3" at instant 5, starting from a fresh default collection. -/
def colA : ClockCollection :=
  tickRef (Clock.init (ClockCollection.init none none) none "a.py:3" none).1 0 5

/-- Fresh collection with an explicit (truthy) period of 3 seconds. -/
def gateCol : ClockCollection :=
  ClockCollection.init (some 3) none

/-! Helper lemmas shared by the claim theorems. -/

theorem if_zero_eq (x : ℚ) : (if x = 0 then (0 : ℚ) else x) = x := by
  split <;> simp_all

theorem alookup_aset_self {α : Type} (l : List (String × α)) (k : String) (v : α) :
    alookup (aset l k v) k = some v := by
  induction l with
  | nil => simp [aset, alookup]
  | cons hd tl ih =>
      obtain ⟨k0, v0⟩ := hd
      by_cases h : k0 = k
      · simp [aset, alookup, h]
      · simp [aset, alookup, h, ih]

/-- Closed form of `k` identical `update(e)` calls on a record seeded with
`e`: the extremes and last value stay at `e`, the inter-sample delta is 0
from the first update on, and the mean is `e / (k + 1)`. -/
theorem updateIter_create_eq (e : Int) (k : Nat) :
    updateIter (AggregateTimes.create e) e k =
      { avg_time_ns := (e : ℚ) / ((k : ℚ) + 1)
        min_time_ns := e
        max_time_ns := e
        last_time_ns := e
        last_dt_ns := if k = 0 then e else 0
        n_periods := k + 1 } := by
  induction k with
  | zero =>
      simp [updateIter, AggregateTimes.create]
  | succ k ih =>
      rw [updateIter, ih]
      have hk1 : ((k : ℚ) + 1) ≠ 0 := by positivity
      simp only [AggregateTimes.update, if_zero_eq, sub_self, min_self, max_self, ite_self,
        Int.cast_zero, AggregateTimes.mk.injEq, Nat.succ_ne_zero, if_false, and_true, true_and]
      push_cast
      rw [add_zero, show (k : ℚ) + 1 + 1 - 1 = (k : ℚ) + 1 by ring, div_mul_cancel₀ _ hk1]

theorem updateAll_n_periods (l : List Int) (a : AggregateTimes) :
    (updateAll a l).n_periods = a.n_periods + l.length := by
  induction l generalizing a with
  | nil => simp [updateAll]
  | cons e l ih =>
      simp only [updateAll, List.foldl_cons] at *
      rw [ih]
      simp [AggregateTimes.update]
      omega

theorem updateAll_max_nonneg (l : List Int) (a : AggregateTimes)
    (ha : 0 ≤ a.max_time_ns) (hl : ∀ e ∈ l, 0 ≤ e) :
    (updateAll a l).max_time_ns = l.foldl max a.max_time_ns := by
  induction l generalizing a with
  | nil => simp [updateAll]
  | cons e l ih =>
      have he : 0 ≤ e := hl e (List.mem_cons_self e l)
      have hstep : (a.update e).max_time_ns = max a.max_time_ns e := by
        simp only [AggregateTimes.update]
        split
        · next h0 => rw [h0, max_comm]; exact (max_eq_left he).symm
        · exact max_comm e a.max_time_ns
      simp only [updateAll, List.foldl_cons] at *
      rw [ih (a.update e) (by rw [hstep]; exact le_max_of_le_left ha)
          (fun x hx => hl x (List.mem_cons_of_mem e hx)), hstep]

theorem updateAll_min_pos (l : List Int) (a : AggregateTimes)
    (ha : 0 < a.min_time_ns) (hl : ∀ e ∈ l, 0 < e) :
    (updateAll a l).min_time_ns = l.foldl min a.min_time_ns := by
  induction l generalizing a with
  | nil => simp [updateAll]
  | cons e l ih =>
      have he : 0 < e := hl e (List.mem_cons_self e l)
      have hstep : (a.update e).min_time_ns = min a.min_time_ns e := by
        simp only [AggregateTimes.update]
        split
        · next h0 => omega
        · exact min_comm e a.min_time_ns
      simp only [updateAll, List.foldl_cons] at *
      rw [ih (a.update e) (by rw [hstep]; exact lt_min ha he)
          (fun x hx => hl x (List.mem_cons_of_mem e hx)), hstep]

/-- C2: seeding a record with `e` and repeating `update(e)` keeps
`last_dt_ns` at 0 from the first update on, and the step-4 recurrence
`avg = (avg * (n_periods - 1) + last_dt_ns) / n_periods` drives the mean to
`e / (k + 1)` after `k` updates. -/
theorem update_repeated_identical_values (e : Int) (k : Nat) (hk : 1 ≤ k) :
    (updateIter (AggregateTimes.create e) e k).avg_time_ns = (e : ℚ) / ((k : ℚ) + 1)
    ∧ (updateIter (AggregateTimes.create e) e k).last_dt_ns = 0 := by
  have hk0 : k ≠ 0 := by omega
  rw [updateIter_create_eq]
  simp [hk0]

/-- Witness for C2 at `e = 1000`, `k = 3`: the mean is `1000 / 4 = 250`
and the delta is 0. -/
theorem update_repeated_identical_values_witness :
    (1 : Nat) ≤ 3
    ∧ ((updateIter (AggregateTimes.create 1000) 1000 3).avg_time_ns
          = (1000 : ℚ) / (((3 : Nat) : ℚ) + 1)
        ∧ (updateIter (AggregateTimes.create 1000) 1000 3).last_dt_ns = 0) :=
  ⟨by norm_num, update_repeated_identical_values 1000 3 (by norm_num)⟩

/-- C3 counterexample: seed 0 and one update of 5 (both non-negative).
Because a zero `min_time_ns` is falsy, the source replaces it with
`math.inf` and the recorded minimum becomes 5, not the true minimum 0. -/
theorem min_tracking_fails_at_zero :
    (updateAll (AggregateTimes.create 0) [5]).min_time_ns = 5
    ∧ List.foldl min (0 : Int) [5] = 0
    ∧ (5 : Int) ≠ 0 := by
  refine ⟨?_, by simp, by norm_num⟩
  simp [updateAll, AggregateTimes.update, AggregateTimes.create]

/-- C3 (amended): over any update sequence, `n_periods` counts the
observations (`k + 1`) and `max_time_ns` is the true maximum of all
non-negative observations; `min_time_ns` is the true minimum provided all
observations (seed included) are strictly positive — a zero statistic is
falsy in the source's `self.min_time_ns or math.inf` guard and resets the
minimum. -/
theorem update_sequence_counts_min_max (e0 : Int) (l : List Int)
    (h0 : 0 ≤ e0) (hl : ∀ e ∈ l, 0 ≤ e) :
    (updateAll (AggregateTimes.create e0) l).n_periods = l.length + 1
    ∧ (updateAll (AggregateTimes.create e0) l).max_time_ns = l.foldl max e0
    ∧ (0 < e0 → (∀ e ∈ l, 0 < e) →
        (updateAll (AggregateTimes.create e0) l).min_time_ns = l.foldl min e0) := by
  refine ⟨?_, ?_, ?_⟩
  · rw [updateAll_n_periods]
    simp [AggregateTimes.create]
    omega
  · exact updateAll_max_nonneg l (AggregateTimes.create e0) h0 hl
  · intro hp hlp
    exact updateAll_min_pos l (AggregateTimes.create e0) hp hlp

/-- Witness for C3 (amended) at seed 100 and updates `[200, 50]`: three
observations, maximum 200, minimum 50. -/
theorem update_sequence_counts_min_max_witness :
    ((updateAll (AggregateTimes.create 100) [200, 50]).n_periods = [200, 50].length + 1
      ∧ (updateAll (AggregateTimes.create 100) [200, 50]).max_time_ns
          = [200, 50].foldl max 100
      ∧ ((0 : Int) < 100 → (∀ e ∈ [200, 50], (0 : Int) < e) →
          (updateAll (AggregateTimes.create 100) [200, 50]).min_time_ns
            = [200, 50].foldl min 100)) :=
  update_sequence_counts_min_max 100 [200, 50] (by norm_num) (by decide)

/-- C1: on a ticked Clock whose statistics map already holds the resolved
label, `tock` does not compute `now - pendingTickTimestamp`: the source
passes the raw `perf_counter_ns` reading to `update`.  Here the Clock was
ticked at 100 and tock fires at 150, so the claimed elapsed interval is
50, yet the record is updated with 150 and the two updates differ. -/
theorem tock_existing_label_uses_raw_timestamp :
    Clock.tock c1Clock "lbl" 150 =
      .ok { c1Clock with
            aggregate_times := [("lbl", (AggregateTimes.create 10).update 150)] }
    ∧ ((AggregateTimes.create 10).update 150).last_time_ns = 150
    ∧ (150 : Int) - 100 = 50
    ∧ (AggregateTimes.create 10).update 150 ≠ (AggregateTimes.create 10).update 50 := by
  refine ⟨?_, rfl, by norm_num, ?_⟩
  · simp [Clock.tock, c1Clock, alookup, aset]
  · intro h
    have h2 := congrArg AggregateTimes.last_time_ns h
    simp [AggregateTimes.update] at h2

/-- C8: re-ticking before tocking discards the first captured timestamp.
After `tick(t1); tick(t2)` the pending timestamp is `t2`, and on a Clock
with no prior tock the next `tock` records `now - t2`, independent of
`t1`. -/
theorem double_tick_last_wins (c : Clock) (t1 t2 now : Int) (label : String)
    (h : c.aggregate_times = []) :
    ((c.tick t1).tick t2).tick_time_ns = some t2
    ∧ ((c.tick t1).tick t2).tock label now =
        .ok { (c.tick t1).tick t2 with
              aggregate_times := [(label, AggregateTimes.create (now - t2))] } := by
  constructor
  · rfl
  · simp [Clock.tick, Clock.tock, h, alookup, aset]

/-- Witness for C8: the default Clock ticked at 3 then 7 and tocked at 17
records the interval `17 - 7`. -/
theorem double_tick_last_wins_witness :
    defaultClock.aggregate_times = []
    ∧ (((defaultClock.tick 3).tick 7).tick_time_ns = some 7
        ∧ ((defaultClock.tick 3).tick 7).tock "x" 17 =
            .ok { (defaultClock.tick 3).tick 7 with
                  aggregate_times := [("x", AggregateTimes.create (17 - 7))] }) :=
  ⟨rfl, double_tick_last_wins defaultClock 3 7 17 "x" rfl⟩

/-- C10: with no pending tick timestamp, `tock` raises the `TypeError`
from `tock_time_ns - None` exactly when the resolved label is absent;
when the label is present the call succeeds and folds the raw current
timestamp `now` into the existing record, never touching the absent
timestamp. -/
theorem tock_without_tick_branches (c : Clock) (label : String) (now : Int)
    (ht : c.tick_time_ns = none) :
    (alookup c.aggregate_times label = none →
        c.tock label now =
          .error "TypeError: unsupported operand types for subtraction: int and NoneType")
    ∧ (∀ a, alookup c.aggregate_times label = some a →
        c.tock label now =
          .ok { c with aggregate_times := aset c.aggregate_times label (a.update now) }) := by
  constructor
  · intro hnone
    simp [Clock.tock, hnone, ht]
  · intro a ha
    simp [Clock.tock, ha]

/-- Witness for C10 on `noTickClock` at label "x": the label is present,
so the call succeeds and the record absorbs the raw timestamp 5. -/
theorem tock_without_tick_branches_witness :
    noTickClock.tick_time_ns = none
    ∧ ((alookup noTickClock.aggregate_times "x" = none →
          noTickClock.tock "x" 5 =
            .error "TypeError: unsupported operand types for subtraction: int and NoneType")
        ∧ (∀ a, alookup noTickClock.aggregate_times "x" = some a →
          noTickClock.tock "x" 5 =
            .ok { noTickClock with
                  aggregate_times := aset noTickClock.aggregate_times "x" (a.update 5) })) :=
  ⟨rfl, tock_without_tick_branches noTickClock "x" 5 rfl⟩

/-- C4: after any unnamed entry-point `tick` at call site `s` produced
Clock reference `r1`, the registry maps `s` to `r1`; a second unnamed
`tick` at the same site resolves to the very same reference (identity
equality in the heap model), leaves the identity map untouched, carries
the Clock's statistics map across unchanged (so it accumulates), and only
re-arms the pending tick timestamp. -/
theorem tick_same_site_reuses_clock (st st1 : ClockCollection) (s : String)
    (now1 now2 : Int) (r1 : Nat)
    (h : tick st none s now1 = .ok (st1, r1)) :
    alookup st1.clocks s = some r1
    ∧ tick st1 none s now2 = .ok (tickRef st1 r1 now2, r1)
    ∧ (tickRef st1 r1 now2).clocks = st1.clocks
    ∧ (clockAt (tickRef st1 r1 now2) r1).aggregate_times
        = (clockAt st1 r1).aggregate_times
    ∧ (clockAt (tickRef st1 r1 now2) r1).tick_time_ns = some now2 := by
  have hlook : alookup st1.clocks s = some r1 := by
    cases hl : alookup st.clocks s with
    | some ref =>
        simp only [tick, hl, Except.ok.injEq, Prod.mk.injEq] at h
        obtain ⟨h1, h2⟩ := h
        subst h1; subst h2
        simpa [tickRef] using hl
    | none =>
        simp only [tick, hl, Clock.init, Except.ok.injEq, Prod.mk.injEq] at h
        obtain ⟨h1, h2⟩ := h
        subst h1; subst h2
        simpa [tickRef] using alookup_aset_self st.clocks s st.nextRef
  refine ⟨hlook, ?_, rfl, ?_, ?_⟩
  · simp only [tick, hlook]
  · simp [clockAt, tickRef, Function.update_same, Clock.tick]
  · simp [clockAt, tickRef, Function.update_same, Clock.tick]

/-- Witness for C4: a fresh default collection ticked at site "a.py:3"
(instant 5) yields reference 0; the state `colA` then satisfies every
conjunct for a second tick at instant 9. -/
theorem tick_same_site_reuses_clock_witness :
    alookup colA.clocks "a.py:3" = some 0
    ∧ tick colA none "a.py:3" 9 = .ok (tickRef colA 0 9, 0)
    ∧ (tickRef colA 0 9).clocks = colA.clocks
    ∧ (clockAt (tickRef colA 0 9) 0).aggregate_times = (clockAt colA 0).aggregate_times
    ∧ (clockAt (tickRef colA 0 9) 0).tick_time_ns = some 9 :=
  tick_same_site_reuses_clock (ClockCollection.init none none) colA "a.py:3" 5 9 0 rfl

/-- C5: the entry-point `tick` with any truthy explicit name raises
`UnboundLocalError` on every collection: `tick_frame_info` is assigned
only inside the `if not name:` branch but is read unconditionally at the
`Clock(...)` construction, so no Clock is ever constructed or
registered. -/
theorem tick_explicit_name_unbound_local (col : ClockCollection) (n : String)
    (frameKey : String) (now : Int) :
    tick col (some n) frameKey now =
      .error "UnboundLocalError: local variable tick_frame_info referenced before assignment" :=
  rfl

/-- C6: with a numeric period `p`, the gate renders exactly when the last
refresh timestamp is absent or strictly more than `p` behind `now`, and
rendering is precisely what stamps the timestamp.  Consequently a call at
`next` right after a render at `now` stays silent while `next - now ≤ p`
and renders once `next - now` exceeds `p`. -/
theorem collection_update_gate (c : ClockCollection) (p now next : ℚ)
    (hp : c.period = PyPeriod.num p) :
    (c.update now = .ok ({ c with last_refresh_time_s := some now }, true)
        ↔ (c.last_refresh_time_s = none
            ∨ ∃ t, c.last_refresh_time_s = some t ∧ p < now - t))
    ∧ (∀ t, c.last_refresh_time_s = some t → now - t ≤ p →
        c.update now = .ok (c, false))
    ∧ (next - now ≤ p →
        ClockCollection.update { c with last_refresh_time_s := some now } next =
          .ok ({ c with last_refresh_time_s := some now }, false))
    ∧ (p < next - now →
        ClockCollection.update { c with last_refresh_time_s := some now } next =
          .ok ({ c with last_refresh_time_s := some next }, true)) := by
  obtain ⟨cs, cn, cc, cl, cp⟩ := c
  simp only [ClockCollection.period] at hp
  subst hp
  refine ⟨?_, ?_, ?_, ?_⟩
  · cases cl with
    | none => simp [ClockCollection.update]
    | some t =>
        by_cases hgt : p < now - t
        · simp [ClockCollection.update, hgt]
        · simp only [ClockCollection.update, gt_iff_lt, if_neg hgt]
          constructor
          · intro hcontra
            simp at hcontra
          · rintro (hnone | ⟨t2, ht2, hlt⟩)
            · exact absurd hnone (by simp)
            · simp only [ClockCollection.last_refresh_time_s, Option.some.injEq] at ht2
              subst ht2
              exact absurd hlt hgt
  · intro t ht hle
    simp only [ClockCollection.last_refresh_time_s] at ht
    subst ht
    simp [ClockCollection.update, not_lt.mpr hle]
  · intro hle
    simp [ClockCollection.update, not_lt.mpr hle]
  · intro hgt
    simp [ClockCollection.update, hgt]

/-- Witness for C6 on `gateCol` (period 3) at instants 1 and 2. -/
theorem collection_update_gate_witness :
    (gateCol.update 1 = .ok ({ gateCol with last_refresh_time_s := some 1 }, true)
        ↔ (gateCol.last_refresh_time_s = none
            ∨ ∃ t, gateCol.last_refresh_time_s = some t ∧ (3 : ℚ) < 1 - t))
    ∧ (∀ t, gateCol.last_refresh_time_s = some t → (1 : ℚ) - t ≤ 3 →
        gateCol.update 1 = .ok (gateCol, false))
    ∧ ((2 : ℚ) - 1 ≤ 3 →
        ClockCollection.update { gateCol with last_refresh_time_s := some 1 } 2 =
          .ok ({ gateCol with last_refresh_time_s := some 1 }, false))
    ∧ ((3 : ℚ) < 2 - 1 →
        ClockCollection.update { gateCol with last_refresh_time_s := some 1 } 2 =
          .ok ({ gateCol with last_refresh_time_s := some 2 }, true)) :=
  collection_update_gate gateCol 3 1 2 (by norm_num [gateCol, ClockCollection.init])

/-- C7: `period or os.environ.get(...)` treats an explicit period of 0 as
absent, so a collection built with period 0 gets the 2.0-second default
and is NOT always due: after a render at instant 0, an update at instant 1
stays silent.  An environment override is kept as a raw string, and once a
refresh timestamp exists the gate comparison against it raises
`TypeError` instead of functioning. -/
theorem collection_period_zero_falls_back :
    (ClockCollection.init (some 0) none).period = PyPeriod.num DEFAULT_PERIOD
    ∧ ClockCollection.update (ClockCollection.init (some 0) none) 0 =
        .ok ({ ClockCollection.init (some 0) none with last_refresh_time_s := some 0 }, true)
    ∧ ClockCollection.update
          { ClockCollection.init (some 0) none with last_refresh_time_s := some 0 } 1 =
        .ok ({ ClockCollection.init (some 0) none with last_refresh_time_s := some 0 }, false)
    ∧ (ClockCollection.init none (some "1")).period = PyPeriod.str "1"
    ∧ ClockCollection.update
          { ClockCollection.init none (some "1") with last_refresh_time_s := some 0 } 5 =
        .error "TypeError: comparison not supported between float and str" := by
  refine ⟨by norm_num [ClockCollection.init], rfl, ?_, rfl, rfl⟩
  norm_num [ClockCollection.update, ClockCollection.init, DEFAULT_PERIOD]

/-- Success of the `set_format` field loop is equivalent to every parsed
field name lying in the recognized vocabulary, whatever lists have been
accumulated so far. -/
theorem setFormatLoop_ok_iff (l : List (Option String)) (fs ts : List String) :
    (∃ r, setFormatLoop l fs ts = .ok r)
      ↔ ∀ f : String, some f ∈ l → (f ∈ FIELDS ∨ f ∈ TIME_FIELDS) := by
  induction l generalizing fs ts with
  | nil => simp [setFormatLoop]
  | cons hd rest ih =>
      cases hd with
      | none => simp [setFormatLoop, ih]
      | some g =>
          by_cases h1 : g ∈ FIELDS
          · simp only [setFormatLoop, if_pos h1]
            rw [ih]
            constructor
            · intro h f hf
              rcases List.mem_cons.mp hf with heq | hmem
              · obtain rfl := Option.some.injEq .. ▸ heq
                exact Or.inl h1
              · exact h f hmem
            · intro h f hf
              exact h f (List.mem_cons_of_mem _ hf)
          · by_cases h2 : g ∈ TIME_FIELDS
            · simp only [setFormatLoop, if_neg h1, if_pos h2]
              rw [ih]
              constructor
              · intro h f hf
                rcases List.mem_cons.mp hf with heq | hmem
                · obtain rfl := Option.some.injEq .. ▸ heq
                  exact Or.inr h2
                · exact h f hmem
              · intro h f hf
                exact h f (List.mem_cons_of_mem _ hf)
            · simp only [setFormatLoop, if_neg h1, if_neg h2]
              constructor
              · rintro ⟨r, hr⟩
                cases hr
              · intro h
                exact absurd (h g (List.mem_cons_self _ _)) (by tauto)

/-- C9: configuring `set_format` succeeds exactly when every field name
that the format parser produced is in the recognized vocabulary
(`FIELDS` or `TIME_FIELDS`); any unrecognized name makes configuration
fail with a `ValueError` — `set_format` itself performs no rendering, so
the failure happens at configuration time. -/
theorem set_format_ok_iff (parsed : List (Option String)) :
    (∃ r, set_format parsed = .ok r)
      ↔ ∀ f : String, some f ∈ parsed → (f ∈ FIELDS ∨ f ∈ TIME_FIELDS) :=
  setFormatLoop_ok_iff parsed [] []

end Ticktock
